import Mathlib

/-! RepRapFirmware (RADDS port): G-code interpreter state and tool definitions.

A shallow embedding of the inline code of `src/GCodes.h` and `src/Tool.h`.

Conventions of the embedding.

* A C++ `float` member that the embedded code only copies is carried as a
  rational number (`ℚ`).  The `float` values that take part in arithmetic (the
  two unit-conversion constants and `speedFactor`) are IEEE 754 binary32 values
  (`FloatValue`), with round-to-nearest-even arithmetic; `double` intermediate
  values are binary64.
* A C array `T a[N]` is a total map `Nat → T`; the indices below `N` are the
  elements of the array.  A write `a[i] = v` is `Function.update a i v`.
* A pointer is `Option Nat`: `none` is `nullptr`, `some a` an address.
* A non-`const` member function becomes a function from the object to the new
  object (paired with the returned value when there is one); a `const` member
  function becomes a function from the object to the returned value.
-/

namespace RepRapFirmware

/-! ## Constants -/

/-- Pointer values: `none` is `nullptr`. -/
abbrev Pointer := Option Nat

/-- Modelled from the spec: the number of axes, `AXES`, is declared in a configuration
header outside `src/`; the comment on `axisLetters[AXES]` in `GCodes.h` lists the three
letters 'X', 'Y', 'Z', and the spec names the axes X, Y, Z. -/
def AXES : Nat := 3

/-- Modelled from the spec: index of the X axis (first of X, Y, Z); declared outside `src/`. -/
def X_AXIS : Nat := 0

/-- Modelled from the spec: index of the Y axis (second of X, Y, Z); declared outside `src/`. -/
def Y_AXIS : Nat := 1

/-- Modelled from the spec: index of the Z axis (third of X, Y, Z); declared outside `src/`. -/
def Z_AXIS : Nat := 2

/-- Source: `const unsigned int StackSize = 5;` -/
def StackSize : Nat := 5

/-- Source: `typedef uint16_t EndstopChecks;` : the width of the type, in bits. -/
def EndstopChecksBits : Nat := 16

/-- Source: `const EndstopChecks ZProbeActive = 1 << 15;` : the `int` value `1 << 15` converted to
the 16-bit unsigned type. -/
def ZProbeActive : Nat := (1 <<< 15) % 2 ^ EndstopChecksBits

/-! ## IEEE 754 arithmetic of `float` and `double` -/

/-- An IEEE 754 binary interchange format: `prec` significand bits (the hidden bit
included) and largest exponent `emax`. -/
structure FloatFormat where
  prec : Nat
  emax : Int

/-- The smallest exponent of a normal number of the format. -/
def FloatFormat.emin (f : FloatFormat) : Int :=
  1 - f.emax

/-- The format of a C++ `float` on the target: 24 significand bits, exponents -126..127. -/
def binary32 : FloatFormat :=
  { prec := 24, emax := 127 }

/-- The format of a C++ `double`: 53 significand bits, exponents -1022..1023. -/
def binary64 : FloatFormat :=
  { prec := 53, emax := 1023 }

/-- The values of a floating-point object: a NaN (payload and sign not tracked), an
infinity, a signed zero, or a non-zero finite number given by its exact rational value. -/
inductive FloatValue where
  | nan
  | inf (neg : Bool)
  | zero (neg : Bool)
  | num (q : ℚ)
  deriving DecidableEq, Repr

/-- Rounding of a rational to the nearest integer, ties to the even integer. -/
def roundHalfEven (x : ℚ) : ℤ :=
  if Int.fract x < 1 / 2 then ⌊x⌋
  else if 1 / 2 < Int.fract x then ⌊x⌋ + 1
  else if ⌊x⌋ % 2 = 0 then ⌊x⌋
  else ⌊x⌋ + 1

/-- The exponent of the unit in the last place at `x`: with `e` the exponent of `x`
(`2 ^ e ≤ |x| < 2 ^ (e + 1)`), raised to `emin` in the subnormal range, the numbers of the
format near `x` are the integer multiples of `2 ^ (e - (prec - 1))`. -/
def FloatFormat.quantum (f : FloatFormat) (x : ℚ) : ℤ :=
  max (Int.log 2 |x|) f.emin - (f.prec - 1)

/-- Rounding of an exact result `x` into the format, to nearest, ties to even: the nearest
multiple of the unit in the last place; a result that reaches `2 ^ (emax + 1)` overflows to
the infinity of the sign of `x`, one that rounds to nothing is the zero of that sign. -/
def FloatFormat.round (f : FloatFormat) (x : ℚ) : FloatValue :=
  if x = 0 then
    FloatValue.zero false
  else if (2 : ℚ) ^ (f.emax + 1) ≤ |(roundHalfEven (x / 2 ^ f.quantum x) : ℚ) * 2 ^ f.quantum x| then
    FloatValue.inf (decide (x < 0))
  else if (roundHalfEven (x / 2 ^ f.quantum x) : ℚ) * 2 ^ f.quantum x = 0 then
    FloatValue.zero (decide (x < 0))
  else
    FloatValue.num ((roundHalfEven (x / 2 ^ f.quantum x) : ℚ) * 2 ^ f.quantum x)

/-- Conversion of a value to the format `f` (`float` to `double` is exact, `double` to
`float` rounds). -/
def FloatValue.convert (f : FloatFormat) : FloatValue → FloatValue
  | FloatValue.nan => FloatValue.nan
  | FloatValue.inf s => FloatValue.inf s
  | FloatValue.zero s => FloatValue.zero s
  | FloatValue.num q => f.round q

/-- The quotient `a / b` computed in the format `f`. -/
def FloatValue.div (f : FloatFormat) : FloatValue → FloatValue → FloatValue
  | FloatValue.nan, _ => FloatValue.nan
  | _, FloatValue.nan => FloatValue.nan
  | FloatValue.inf _, FloatValue.inf _ => FloatValue.nan
  | FloatValue.zero _, FloatValue.zero _ => FloatValue.nan
  | FloatValue.inf s, FloatValue.zero t => FloatValue.inf (xor s t)
  | FloatValue.inf s, FloatValue.num q => FloatValue.inf (xor s (decide (q < 0)))
  | FloatValue.zero s, FloatValue.inf t => FloatValue.zero (xor s t)
  | FloatValue.zero s, FloatValue.num q => FloatValue.zero (xor s (decide (q < 0)))
  | FloatValue.num q, FloatValue.inf s => FloatValue.zero (xor (decide (q < 0)) s)
  | FloatValue.num q, FloatValue.zero s => FloatValue.inf (xor (decide (q < 0)) s)
  | FloatValue.num a, FloatValue.num b => f.round (a / b)

/-- Source: `const float minutesToSeconds = 60.0;` : the `double` literal 60.0 converted
to `float`. -/
def minutesToSeconds : FloatValue :=
  FloatValue.convert binary32 (binary64.round 60)

/-- Source: `const float secondsToMinutes = 1.0/minutesToSeconds;` : the divisor is
promoted to `double`, the division is made in `double`, and the quotient is converted to
`float`. -/
def secondsToMinutes : FloatValue :=
  FloatValue.convert binary32
    (FloatValue.div binary64 (binary64.round 1) (FloatValue.convert binary64 minutesToSeconds))

/-! ## Data model -/

/-- Source: `enum class GCodeState` -/
inductive GCodeState where
  | normal
  | waitingForMoveToComplete
  | homing
  | setBed1
  | setBed2
  | setBed3
  | toolChange1
  | toolChange2
  | toolChange3
  | pausing1
  | pausing2
  | resuming1
  | resuming2
  | resuming3
  deriving DecidableEq, Repr

/-- Modelled from the spec: `FileData` is declared outside `src/`; the spec describes it as
the file read position of a context that is backed by a file (a byte offset), absent when
the context has no live file. -/
abbrev FileData := Option Nat

/-- Source: `class GCodeMachineState` : the state saved when a macro file is executed. -/
structure GCodeMachineState where
  state : GCodeState
  gb : Pointer
  feedrate : ℚ
  fileState : FileData
  drivesRelative : Bool
  axesRelative : Bool
  doingFileMacro : Bool

/-- Source: `struct GCodes::RawMove`; `coords` has `DRIVES` elements. -/
structure RawMove where
  coords : Nat → ℚ
  feedRate : ℚ
  filePos : Nat
  endStopsToCheck : Nat
  moveType : Nat
  isFirmwareRetraction : Bool
  usePressureAdvance : Bool

/-- The data members of `class GCodes`, in declaration order.  The members that exist only
under `WEBSERVER` (`webserver`, `httpGCode`, `telnetGCode`) or `LCD_UI` (`lcdGCode`,
`lcdUiInput`) are kept, so that frame statements cover every build. -/
structure GCodes where
  platform : Pointer
  webserver : Pointer
  httpGCode : Pointer
  telnetGCode : Pointer
  fileGCode : Pointer
  serialGCode : Pointer
  auxGCode : Pointer
  fileMacroGCode : Pointer
  gbCurrent : Pointer
  active : Bool
  isPaused : Bool
  dwellWaiting : Bool
  moveAvailable : Bool
  dwellTime : ℚ
  feedRate : ℚ
  moveBuffer : RawMove
  savedMoveBuffer : Nat → ℚ
  pausedMoveBuffer : Nat → ℚ
  state : GCodeState
  drivesRelative : Bool
  axesRelative : Bool
  stack : Nat → GCodeMachineState
  stackPointer : Nat
  axisScaleFactors : Nat → ℚ
  lastRawExtruderPosition : Nat → ℚ
  rawExtruderTotalByDrive : Nat → ℚ
  rawExtruderTotal : ℚ
  record : Nat → ℚ
  moveToDo : Nat → ℚ
  activeDrive : Nat → Bool
  offSetSet : Bool
  distanceScale : ℚ
  fileBeingPrinted : FileData
  fileToPrint : FileData
  fileBeingWritten : Pointer
  toBeHomed : Nat
  doingFileMacro : Bool
  oldToolNumber : Int
  newToolNumber : Int
  eofString : Pointer
  eofStringCounter : Nat
  eofStringLength : Nat
  probeCount : Int
  cannedCycleMoveCount : Int
  cannedCycleMoveQueued : Bool
  zProbesSet : Bool
  longWait : ℚ
  limitAxes : Bool
  axisIsHomed : Nat → Bool
  pausedFanValues : Nat → ℚ
  speedFactor : FloatValue
  extrusionFactors : Nat → ℚ
  lastProbedZ : ℚ
  auxDetected : Bool
  auxGCodeReply : Pointer
  auxSeq : Nat
  simulating : Bool
  simulationTime : ℚ
  isFlashing : Bool
  filePos : Nat
  retractLength : ℚ
  retractExtra : ℚ
  retractSpeed : ℚ
  retractHop : ℚ
  lcdGCode : Pointer
  lcdUiInput : Pointer

/-- The data members of `class Tool`, in declaration order (`freelist` is static and not
part of an object).  `drives` and `mix` have `DRIVES - AXES` elements, `heaters` and the
two temperature arrays `HEATERS`, `offset` has `AXES`. -/
structure Tool where
  myNumber : Int
  drives : Nat → Int
  mix : Nat → ℚ
  mixing : Bool
  driveCount : Nat
  heaters : Nat → Int
  activeTemperatures : Nat → ℚ
  standbyTemperatures : Nat → ℚ
  heaterCount : Nat
  next : Pointer
  active : Bool
  heaterFault : Bool
  offset : Nat → ℚ
  displayColdExtrudeWarning : Bool

/-! ## Inline member functions of `GCodes` -/

namespace GCodes

/-- Source: `bool GetAxisIsHomed(uint8_t axis) const { return axisIsHomed[axis]; }` -/
def GetAxisIsHomed (s : GCodes) (axis : Nat) : Bool :=
  s.axisIsHomed axis

/-- Source: `void SetAxisIsHomed(uint8_t axis) { axisIsHomed[axis] = true; }` -/
def SetAxisIsHomed (s : GCodes) (axis : Nat) : GCodes :=
  { s with axisIsHomed := Function.update s.axisIsHomed axis true }

/-- Source: `bool HaveAux() const { return auxDetected; }` -/
def HaveAux (s : GCodes) : Bool :=
  s.auxDetected

/-- Source: `uint32_t GetAuxSeq() { return auxSeq; }` -/
def GetAuxSeq (s : GCodes) : Nat :=
  s.auxSeq

/-- Source: `inline bool GCodes::DoingFileMacro() const { return doingFileMacro; }` -/
def DoingFileMacro (s : GCodes) : Bool :=
  s.doingFileMacro

/-- Source: `return axisIsHomed[X_AXIS] && axisIsHomed[Y_AXIS] && axisIsHomed[Z_AXIS];` -/
def AllAxesAreHomed (s : GCodes) : Bool :=
  s.axisIsHomed X_AXIS && s.axisIsHomed Y_AXIS && s.axisIsHomed Z_AXIS

/-- Source: `axisIsHomed[X_AXIS] = axisIsHomed[Y_AXIS] = axisIsHomed[Z_AXIS] = false;` :
the chained assignment stores `false` into Z, then Y, then X. -/
def SetAllAxesNotHomed (s : GCodes) : GCodes :=
  let a1 := Function.update s.axisIsHomed Z_AXIS false
  let a2 := Function.update a1 Y_AXIS (a1 Z_AXIS)
  let a3 := Function.update a2 X_AXIS (a2 Y_AXIS)
  { s with axisIsHomed := a3 }

/-- Source: `inline size_t GCodes::GetStackPointer() const { return stackPointer; }` -/
def GetStackPointer (s : GCodes) : Nat :=
  s.stackPointer

/-- Source: `OutputBuffer *temp = auxGCodeReply; auxGCodeReply = nullptr; return temp;` :
the returned pointer, and the object after the call. -/
def GetAuxGCodeReply (s : GCodes) : Pointer × GCodes :=
  let temp := s.auxGCodeReply
  (temp, { s with auxGCodeReply := none })

/-! ### Member functions declared in `GCodes.h` whose bodies are outside `src/` -/

/-- Modelled from the spec: `void Push()` ("Push feedrate etc on the stack") is declared in
`GCodes.h`, its body is not in `src/`.  Spec 4.4: push fails with a stack-overflow error if
depth == limit, otherwise saves the current feed rate, relative-mode flags, active context
and file position (the frame of spec 3 also holds the state and the inside-a-macro flag),
then switches the active context to the macro file reader.  The Boolean is `true` when the
frame was pushed and `false` when the error was reported. -/
def Push (s : GCodes) : GCodes × Bool :=
  if s.stackPointer = StackSize then
    (s, false)
  else
    let frame : GCodeMachineState :=
      { state := s.state
        gb := s.gbCurrent
        feedrate := s.feedRate
        fileState := s.fileBeingPrinted
        drivesRelative := s.drivesRelative
        axesRelative := s.axesRelative
        doingFileMacro := s.doingFileMacro }
    ({ s with
        stack := Function.update s.stack s.stackPointer frame
        stackPointer := s.stackPointer + 1
        gbCurrent := s.fileMacroGCode }, true)

/-- Modelled from the spec: `void Pop()` ("Pop feedrate etc") is declared in `GCodes.h`, its
body is not in `src/`.  Spec 4.4: pop fails (reported, non-fatal) if depth == 0, otherwise
restores the saved fields exactly and resumes the parent file position.  The Boolean is
`true` when a frame was popped and `false` when the error was reported. -/
def Pop (s : GCodes) : GCodes × Bool :=
  if s.stackPointer = 0 then
    (s, false)
  else
    let frame := s.stack (s.stackPointer - 1)
    ({ s with
        stackPointer := s.stackPointer - 1
        state := frame.state
        gbCurrent := frame.gb
        feedRate := frame.feedrate
        fileBeingPrinted := frame.fileState
        drivesRelative := frame.drivesRelative
        axesRelative := frame.axesRelative
        doingFileMacro := frame.doingFileMacro }, true)

/-- Modelled from the spec: `int SetUpMove(GCodeBuffer*, StringRef&)` and
`bool LoadMoveBufferFromGCode(...)` are declared in `GCodes.h`, their bodies are not in
`src/`.  Spec 4.3: steps 1 to 5 compute the move from the decoded command (here the
argument `m`); step 6 rejects (fails, does not stage) if the Staged Move slot is still
occupied; otherwise the move is staged as a whole.  The Boolean is `true` when the move was
staged. -/
def SetUpMove (s : GCodes) (m : RawMove) : GCodes × Bool :=
  if s.moveAvailable then
    (s, false)
  else
    ({ s with moveBuffer := m, moveAvailable := true }, true)

/-- Modelled from the spec: `bool ReadMove(RawMove& m)` ("Called by the Move class to get a
movement set by the last G Code") is declared in `GCodes.h`, its body is not in `src/`.
Spec 3: the Staged Move is a single-slot mailbox; the Move Executor consumes one staged move
at a time and clears "move available".  The result is the move handed over, if any. -/
def ReadMove (s : GCodes) : GCodes × Option RawMove :=
  if s.moveAvailable then
    ({ s with moveAvailable := false }, some s.moveBuffer)
  else
    (s, none)

/-- Modelled from the spec: `void ClearMove()` is declared in `GCodes.h`, its body is not in
`src/`.  Spec 5: cancellation clears the Staged Move slot. -/
def ClearMove (s : GCodes) : GCodes :=
  { s with moveAvailable := false }

end GCodes

/-! ## Operation sequences -/

/-- The two operations on the macro stack. -/
inductive StackOp where
  | push
  | pop
  deriving DecidableEq, Repr

/-- One operation on the macro stack, applied to an interpreter. -/
def StackOp.apply (s : GCodes) : StackOp → GCodes
  | .push => (s.Push).1
  | .pop => (s.Pop).1

/-- A sequence of `Push` and `Pop` calls, applied from left to right. -/
def runStackOps (ops : List StackOp) (s : GCodes) : GCodes :=
  ops.foldl StackOp.apply s

/-- The operations on the Staged Move slot. -/
inductive MoveOp where
  | stage (m : RawMove)
  | read
  | clear

/-- Whether the operation is one that empties the slot (`ReadMove` or `ClearMove`). -/
def MoveOp.empties : MoveOp → Bool
  | .stage _ => false
  | .read => true
  | .clear => true

/-- One operation on the Staged Move slot, applied to an interpreter. -/
def MoveOp.apply (s : GCodes) : MoveOp → GCodes
  | .stage m => (s.SetUpMove m).1
  | .read => (s.ReadMove).1
  | .clear => s.ClearMove

/-- A sequence of staging attempts, `ReadMove` and `ClearMove` calls, applied from left to
right. -/
def runMoveOps (ops : List MoveOp) (s : GCodes) : GCodes :=
  ops.foldl MoveOp.apply s

/-! ## Endstop bitmaps -/

/-- The bit of drive `d` in an `EndstopChecks` bitmap: `1 << d`. -/
def driveBit (d : Nat) : Nat :=
  1 <<< d

/-- The bitmap that is the union of the bits of the drives in `ds`. -/
def driveBitmap (ds : List Nat) : Nat :=
  ds.foldl (fun b d => b ||| driveBit d) 0

/-- Bitwise complement within the 16 bits of `EndstopChecks`. -/
def notEndstopChecks (b : Nat) : Nat :=
  (2 ^ EndstopChecksBits - 1) ^^^ b

/-! ## Concrete objects used to instantiate the theorems -/

/-- A saved frame with every field at its zero value. -/
def sampleFrame : GCodeMachineState :=
  { state := GCodeState.normal
    gb := none
    feedrate := 0
    fileState := none
    drivesRelative := false
    axesRelative := false
    doingFileMacro := false }

/-- A move to (10, 10, 0, 0) at 50 distance units per second. -/
def sampleMove : RawMove :=
  { coords := fun i => if i < 2 then 10 else 0
    feedRate := 50
    filePos := 0
    endStopsToCheck := 0
    moveType := 0
    isFirmwareRetraction := false
    usePressureAdvance := false }

/-- An idle interpreter: empty macro stack, empty move slot, no axis homed, feed rate 50,
speed factor `secondsToMinutes`, an AUX reply waiting at address 7. -/
def sampleGCodes : GCodes :=
  { platform := some 1
    webserver := none
    httpGCode := none
    telnetGCode := none
    fileGCode := some 2
    serialGCode := some 3
    auxGCode := some 4
    fileMacroGCode := some 5
    gbCurrent := some 3
    active := true
    isPaused := false
    dwellWaiting := false
    moveAvailable := false
    dwellTime := 0
    feedRate := 50
    moveBuffer :=
      { coords := fun _ => 0
        feedRate := 0
        filePos := 0
        endStopsToCheck := 0
        moveType := 0
        isFirmwareRetraction := false
        usePressureAdvance := false }
    savedMoveBuffer := fun _ => 0
    pausedMoveBuffer := fun _ => 0
    state := GCodeState.normal
    drivesRelative := true
    axesRelative := false
    stack := fun _ => sampleFrame
    stackPointer := 0
    axisScaleFactors := fun _ => 1
    lastRawExtruderPosition := fun _ => 0
    rawExtruderTotalByDrive := fun _ => 0
    rawExtruderTotal := 0
    record := fun _ => 0
    moveToDo := fun _ => 0
    activeDrive := fun _ => false
    offSetSet := false
    distanceScale := 1
    fileBeingPrinted := none
    fileToPrint := none
    fileBeingWritten := none
    toBeHomed := 0
    doingFileMacro := false
    oldToolNumber := 0
    newToolNumber := 0
    eofString := none
    eofStringCounter := 0
    eofStringLength := 0
    probeCount := 0
    cannedCycleMoveCount := 0
    cannedCycleMoveQueued := false
    zProbesSet := false
    longWait := 0
    limitAxes := true
    axisIsHomed := fun _ => false
    pausedFanValues := fun _ => 0
    speedFactor := secondsToMinutes
    extrusionFactors := fun _ => 1
    lastProbedZ := 0
    auxDetected := true
    auxGCodeReply := some 7
    auxSeq := 12
    simulating := false
    simulationTime := 0
    isFlashing := false
    filePos := 0
    retractLength := 0
    retractExtra := 0
    retractSpeed := 0
    retractHop := 0
    lcdGCode := none
    lcdUiInput := none }

/-- A mixing tool with two drives (3 and 4) and one heater. -/
def sampleTool : Tool :=
  { myNumber := 1
    drives := fun i => if i = 0 then 3 else if i = 1 then 4 else 0
    mix := fun i => if i = 0 then 1 else 0
    mixing := true
    driveCount := 2
    heaters := fun i => if i = 0 then 1 else 0
    activeTemperatures := fun _ => 0
    standbyTemperatures := fun _ => 0
    heaterCount := 1
    next := none
    active := false
    heaterFault := false
    offset := fun _ => 0
    displayColdExtrudeWarning := false }

/-- The ratio vector (1/4, 3/4, 9, 9, ...). -/
def sampleMix : Nat → ℚ :=
  fun i => if i = 0 then 1 / 4 else if i = 1 then 3 / 4 else 9

/-! ## Inline member functions of `Tool` -/

namespace Tool

/-- Source: `inline int Tool::Drive(int driveNumber) const { return drives[driveNumber]; }` -/
def Drive (t : Tool) (driveNumber : Nat) : Int :=
  t.drives driveNumber

/-- Source: `inline size_t Tool::HeaterCount() const { return heaterCount; }` -/
def HeaterCount (t : Tool) : Nat :=
  t.heaterCount

/-- Source: `inline int Tool::Heater(int heaterNumber) const { return heaters[heaterNumber]; }` -/
def Heater (t : Tool) (heaterNumber : Nat) : Int :=
  t.heaters heaterNumber

/-- Source: `inline Tool* Tool::Next() const { return next; }` -/
def Next (t : Tool) : Pointer :=
  t.next

/-- Source: `inline int Tool::Number() const { return myNumber; }` -/
def Number (t : Tool) : Int :=
  t.myNumber

/-- Source: `for(size_t drive = 0; drive < driveCount; drive++) { mix[drive] = m[drive]; }` :
the loop body is applied to `drive = 0, 1, ..., driveCount - 1` in this order. -/
def DefineMix (t : Tool) (m : Nat → ℚ) : Tool :=
  (List.range t.driveCount).foldl
    (fun (t : Tool) (drive : Nat) => { t with mix := Function.update t.mix drive (m drive) }) t

/-- Source: `inline const float* Tool::GetMix() const { return mix; }` -/
def GetMix (t : Tool) : Nat → ℚ :=
  t.mix

/-- Source: `inline void Tool::SetMixing(bool b) { mixing = b; }` -/
def SetMixing (t : Tool) (b : Bool) : Tool :=
  { t with mixing := b }

/-- Source: `inline bool Tool::GetMixing() const { return mixing; }` -/
def GetMixing (t : Tool) : Bool :=
  t.mixing

/-- Source: `inline size_t Tool::DriveCount() const { return driveCount; }` -/
def DriveCount (t : Tool) : Nat :=
  t.driveCount

/-- Source: `inline const float *Tool::GetOffset() const { return offset; }` -/
def GetOffset (t : Tool) : Nat → ℚ :=
  t.offset

/-- Source: `for(size_t i = 0; i < AXES; ++i) { offset[i] = offs[i]; }` -/
def SetOffset (t : Tool) (offs : Nat → ℚ) : Tool :=
  (List.range AXES).foldl
    (fun (t : Tool) (i : Nat) => { t with offset := Function.update t.offset i (offs i) }) t

end Tool

end RepRapFirmware

namespace RepRapFirmware

/-! ## The Axis-Homed Set -/

/-- After a sequence of `SetAxisIsHomed` calls an axis is homed exactly when it was homed
before or is one of the axes of the sequence. -/
theorem GetAxisIsHomed_foldl_SetAxisIsHomed (l : List Nat) (s : GCodes) (a : Nat) :
    (l.foldl GCodes.SetAxisIsHomed s).GetAxisIsHomed a = (s.GetAxisIsHomed a || decide (a ∈ l)) := by
  induction l generalizing s with
  | nil => simp
  | cons b l ih =>
    rw [List.foldl_cons, ih]
    by_cases hab : a = b
    · subst hab
      simp [GCodes.SetAxisIsHomed, GCodes.GetAxisIsHomed]
    · have hne : ¬ b = a := fun h => hab h.symm
      simp [GCodes.SetAxisIsHomed, GCodes.GetAxisIsHomed, Function.update, hab, hne]

/-- Claim C4.  Starting from an Axis-Homed Set in which every axis is false,
`SetAxisIsHomed(Z_AXIS)` leaves X and Y false and makes Z true; and for every axis
`a < AXES` and every prior state, `SetAxisIsHomed(a)` makes `GetAxisIsHomed(a)` true and
leaves `GetAxisIsHomed(b)` unchanged for every other axis `b`. -/
theorem SetAxisIsHomed_sets_only_that_axis (s : GCodes) :
    ((∀ a, a < AXES → s.GetAxisIsHomed a = false) →
      (s.SetAxisIsHomed Z_AXIS).GetAxisIsHomed X_AXIS = false ∧
      (s.SetAxisIsHomed Z_AXIS).GetAxisIsHomed Y_AXIS = false ∧
      (s.SetAxisIsHomed Z_AXIS).GetAxisIsHomed Z_AXIS = true) ∧
    (∀ a, a < AXES →
      (s.SetAxisIsHomed a).GetAxisIsHomed a = true ∧
      ∀ b, b ≠ a → (s.SetAxisIsHomed a).GetAxisIsHomed b = s.GetAxisIsHomed b) := by
  refine ⟨fun h => ⟨?_, ?_, ?_⟩, fun a _ => ⟨?_, fun b hb => ?_⟩⟩
  · have hx := h X_AXIS (by decide)
    simpa [GCodes.SetAxisIsHomed, GCodes.GetAxisIsHomed, Function.update, X_AXIS, Z_AXIS]
      using hx
  · have hy := h Y_AXIS (by decide)
    simpa [GCodes.SetAxisIsHomed, GCodes.GetAxisIsHomed, Function.update, Y_AXIS, Z_AXIS]
      using hy
  · simp [GCodes.SetAxisIsHomed, GCodes.GetAxisIsHomed]
  · simp [GCodes.SetAxisIsHomed, GCodes.GetAxisIsHomed]
  · simp [GCodes.SetAxisIsHomed, GCodes.GetAxisIsHomed, Function.update, hb]

/-- Instance of claim C4 on the idle interpreter, where no axis is homed: homing Z. -/
theorem SetAxisIsHomed_sets_only_that_axis_witness :
    (∀ a, a < AXES → sampleGCodes.GetAxisIsHomed a = false) ∧
    Z_AXIS < AXES ∧ X_AXIS ≠ Z_AXIS ∧
    (sampleGCodes.SetAxisIsHomed Z_AXIS).GetAxisIsHomed X_AXIS = false ∧
    (sampleGCodes.SetAxisIsHomed Z_AXIS).GetAxisIsHomed Y_AXIS = false ∧
    (sampleGCodes.SetAxisIsHomed Z_AXIS).GetAxisIsHomed Z_AXIS = true ∧
    (sampleGCodes.SetAxisIsHomed Z_AXIS).GetAxisIsHomed X_AXIS
      = sampleGCodes.GetAxisIsHomed X_AXIS :=
  have h0 : ∀ a, a < AXES → sampleGCodes.GetAxisIsHomed a = false := fun _ _ => rfl
  have hz : Z_AXIS < AXES := by decide
  have hxz : X_AXIS ≠ Z_AXIS := by decide
  have hc := (SetAxisIsHomed_sets_only_that_axis sampleGCodes).1 h0
  ⟨h0, hz, hxz, hc.1, hc.2.1, hc.2.2,
    ((SetAxisIsHomed_sets_only_that_axis sampleGCodes).2 Z_AXIS hz).2 X_AXIS hxz⟩

/-- Claim C5.  `SetAllAxesNotHomed` clears the whole Axis-Homed Set: for every prior state,
afterwards `GetAxisIsHomed(a)` is false for every `a < AXES`, and `AllAxesAreHomed`
returns false. -/
theorem SetAllAxesNotHomed_clears_all (s : GCodes) :
    (∀ a, a < AXES → (s.SetAllAxesNotHomed).GetAxisIsHomed a = false) ∧
    (s.SetAllAxesNotHomed).AllAxesAreHomed = false := by
  refine ⟨fun a ha => ?_, ?_⟩
  · have ha3 : a < 3 := ha
    interval_cases a <;>
      simp [GCodes.SetAllAxesNotHomed, GCodes.GetAxisIsHomed, Function.update,
        X_AXIS, Y_AXIS, Z_AXIS]
  · simp [GCodes.SetAllAxesNotHomed, GCodes.AllAxesAreHomed, Function.update,
      X_AXIS, Y_AXIS, Z_AXIS]

/-- Instance of claim C5 on an interpreter with X, Y and Z homed: the Y axis is cleared. -/
theorem SetAllAxesNotHomed_clears_all_witness :
    (((sampleGCodes.SetAxisIsHomed X_AXIS).SetAxisIsHomed Y_AXIS).SetAxisIsHomed
        Z_AXIS).GetAxisIsHomed Y_AXIS = true ∧
    Y_AXIS < AXES ∧
    ((((sampleGCodes.SetAxisIsHomed X_AXIS).SetAxisIsHomed Y_AXIS).SetAxisIsHomed
        Z_AXIS).SetAllAxesNotHomed).GetAxisIsHomed Y_AXIS = false :=
  ⟨by decide, by decide,
    (SetAllAxesNotHomed_clears_all
      (((sampleGCodes.SetAxisIsHomed X_AXIS).SetAxisIsHomed Y_AXIS).SetAxisIsHomed
        Z_AXIS)).1 Y_AXIS (by decide)⟩

/-- Claim C6.  `AllAxesAreHomed` returns true if and only if `GetAxisIsHomed(a)` is true for
every axis `a < AXES`; it is true after `SetAxisIsHomed` has been called for X_AXIS, Y_AXIS
and Z_AXIS in any order, and false if any one axis is not homed.  Being a `const` member
function it is a function of the object alone and returns no new object. -/
theorem AllAxesAreHomed_iff_every_axis (s : GCodes) :
    (s.AllAxesAreHomed = true ↔ ∀ a, a < AXES → s.GetAxisIsHomed a = true) ∧
    (∀ l : List Nat, l.Perm [X_AXIS, Y_AXIS, Z_AXIS] →
      (l.foldl GCodes.SetAxisIsHomed s).AllAxesAreHomed = true) ∧
    (∀ a, a < AXES → s.GetAxisIsHomed a = false → s.AllAxesAreHomed = false) := by
  have hiff : s.AllAxesAreHomed = true ↔ ∀ a, a < AXES → s.GetAxisIsHomed a = true := by
    constructor
    · intro h a ha
      have ha3 : a < 3 := ha
      simp only [GCodes.AllAxesAreHomed, Bool.and_eq_true, X_AXIS, Y_AXIS, Z_AXIS] at h
      interval_cases a
      · exact h.1.1
      · exact h.1.2
      · exact h.2
    · intro h
      have hx := h X_AXIS (by decide)
      have hy := h Y_AXIS (by decide)
      have hz := h Z_AXIS (by decide)
      simp only [GCodes.GetAxisIsHomed] at hx hy hz
      simp [GCodes.AllAxesAreHomed, hx, hy, hz]
  refine ⟨hiff, fun l hl => ?_, fun a ha hf => ?_⟩
  · have key : ∀ t : GCodes, t.AllAxesAreHomed
        = (t.GetAxisIsHomed X_AXIS && t.GetAxisIsHomed Y_AXIS && t.GetAxisIsHomed Z_AXIS) :=
      fun _ => rfl
    have hx : X_AXIS ∈ l := hl.mem_iff.mpr (by simp)
    have hy : Y_AXIS ∈ l := hl.mem_iff.mpr (by simp)
    have hz : Z_AXIS ∈ l := hl.mem_iff.mpr (by simp)
    rw [key]
    simp [GetAxisIsHomed_foldl_SetAxisIsHomed, hx, hy, hz]
  · cases hall : s.AllAxesAreHomed with
    | false => rfl
    | true =>
      have := hiff.mp hall a ha
      rw [hf] at this
      exact absurd this (by decide)

/-- Instance of claim C6: homing Z, then X, then Y on the idle interpreter makes
`AllAxesAreHomed` true, and on the idle interpreter, where Y is not homed, it is false. -/
theorem AllAxesAreHomed_iff_every_axis_witness :
    [Z_AXIS, X_AXIS, Y_AXIS].Perm [X_AXIS, Y_AXIS, Z_AXIS] ∧
    ([Z_AXIS, X_AXIS, Y_AXIS].foldl GCodes.SetAxisIsHomed sampleGCodes).AllAxesAreHomed = true ∧
    Y_AXIS < AXES ∧ sampleGCodes.GetAxisIsHomed Y_AXIS = false ∧
    sampleGCodes.AllAxesAreHomed = false :=
  have hp : [Z_AXIS, X_AXIS, Y_AXIS].Perm [X_AXIS, Y_AXIS, Z_AXIS] := by decide
  ⟨hp, (AllAxesAreHomed_iff_every_axis sampleGCodes).2.1 _ hp, by decide, rfl,
    (AllAxesAreHomed_iff_every_axis sampleGCodes).2.2 Y_AXIS (by decide) rfl⟩

/-! ## The cached AUX reply -/

/-- Claim C9.  `GetAuxGCodeReply` returns the value `auxGCodeReply` held before the call and
leaves `auxGCodeReply` null, so that a second call made immediately afterwards returns null;
`auxSeq` and `auxDetected` are unchanged, and so is every other field: putting the old
reply back into the new object gives the old object. -/
theorem GetAuxGCodeReply_returns_and_clears (s : GCodes) :
    (s.GetAuxGCodeReply).1 = s.auxGCodeReply ∧
    (s.GetAuxGCodeReply).2.auxGCodeReply = none ∧
    ((s.GetAuxGCodeReply).2.GetAuxGCodeReply).1 = none ∧
    (s.GetAuxGCodeReply).2.GetAuxSeq = s.GetAuxSeq ∧
    (s.GetAuxGCodeReply).2.HaveAux = s.HaveAux ∧
    { (s.GetAuxGCodeReply).2 with auxGCodeReply := s.auxGCodeReply } = s :=
  ⟨rfl, rfl, rfl, rfl, rfl, rfl⟩

/-! ## The macro call stack -/

/-- Source: `Push` never takes the depth above `StackSize`. -/
theorem Push_stackPointer_le (s : GCodes) (h : s.stackPointer ≤ StackSize) :
    (s.Push).1.stackPointer ≤ StackSize := by
  unfold GCodes.Push
  split
  · exact h
  · rename_i hne
    show s.stackPointer + 1 ≤ StackSize
    omega

/-- Source: `Pop` never increases the depth. -/
theorem Pop_stackPointer_le (s : GCodes) : (s.Pop).1.stackPointer ≤ s.stackPointer := by
  unfold GCodes.Pop
  split
  · exact le_refl _
  · show s.stackPointer - 1 ≤ s.stackPointer
    omega

/-- The bound on the depth is preserved by every sequence of `Push` and `Pop`. -/
theorem runStackOps_stackPointer_le (ops : List StackOp) (s : GCodes)
    (h : s.stackPointer ≤ StackSize) : (runStackOps ops s).stackPointer ≤ StackSize := by
  induction ops generalizing s with
  | nil => exact h
  | cons op ops ih =>
    show (runStackOps ops (StackOp.apply s op)).stackPointer ≤ StackSize
    apply ih
    cases op with
    | push => exact Push_stackPointer_le s h
    | pop => exact le_trans (Pop_stackPointer_le s) h

/-- Claim C1.  In every state reached through `Push` and `Pop` from a state whose depth is
at most `StackSize`, the value `GetStackPointer` returns is at most `StackSize = 5`; and a
`Push` made when the depth is already 5 is rejected, the depth and the frames
`stack[0..4]` being left exactly as they were (the whole object is unchanged). -/
theorem stack_depth_never_exceeds_StackSize (s0 : GCodes) (ops : List StackOp)
    (h0 : s0.GetStackPointer ≤ StackSize) :
    (runStackOps ops s0).GetStackPointer ≤ 5 ∧
    ((runStackOps ops s0).GetStackPointer = 5 →
      ((runStackOps ops s0).Push).2 = false ∧
      ((runStackOps ops s0).Push).1.GetStackPointer = (runStackOps ops s0).GetStackPointer ∧
      (∀ i, i < StackSize →
        ((runStackOps ops s0).Push).1.stack i = (runStackOps ops s0).stack i) ∧
      ((runStackOps ops s0).Push).1 = runStackOps ops s0) := by
  refine ⟨runStackOps_stackPointer_le ops s0 h0, fun h5 => ?_⟩
  have hfull : (runStackOps ops s0).stackPointer = StackSize := h5
  have hpush : (runStackOps ops s0).Push = (runStackOps ops s0, false) := by
    unfold GCodes.Push
    rw [if_pos hfull]
  rw [hpush]
  exact ⟨rfl, rfl, fun _ _ => rfl, rfl⟩

/-- Instance of claim C1: after five pushes on the idle interpreter the depth is 5, and the
sixth push is rejected. -/
theorem stack_depth_never_exceeds_StackSize_witness :
    sampleGCodes.GetStackPointer ≤ StackSize ∧
    (runStackOps (List.replicate 5 StackOp.push) sampleGCodes).GetStackPointer = 5 ∧
    (runStackOps (List.replicate 6 StackOp.push) sampleGCodes).GetStackPointer ≤ 5 ∧
    ((runStackOps (List.replicate 5 StackOp.push) sampleGCodes).Push).2 = false :=
  have h0 : sampleGCodes.GetStackPointer ≤ StackSize := by decide
  have h5 : (runStackOps (List.replicate 5 StackOp.push) sampleGCodes).GetStackPointer = 5 :=
    by decide
  ⟨h0, h5,
    (stack_depth_never_exceeds_StackSize sampleGCodes (List.replicate 6 StackOp.push) h0).1,
    ((stack_depth_never_exceeds_StackSize sampleGCodes (List.replicate 5 StackOp.push)
      h0).2 h5).1⟩

/-- Claim C3.  For every state with stack depth below `StackSize`, `Push` immediately
followed by `Pop` succeeds twice, restores the feed rate and both relative-mode flags
(`drivesRelative`, `axesRelative`) and leaves the stack depth as before the `Push`; the
frame saved by `Push` is the `GCodeMachineState` made of exactly the seven fields state,
gb, feedrate, fileState, drivesRelative, axesRelative and doingFileMacro, and two frames
that agree on these seven fields are equal. -/
theorem Push_then_Pop_restores (s : GCodes) (h : s.GetStackPointer < StackSize) :
    ((s.Push).2 = true ∧ ((s.Push).1.Pop).2 = true) ∧
    ((s.Push).1.Pop).1.feedRate = s.feedRate ∧
    ((s.Push).1.Pop).1.drivesRelative = s.drivesRelative ∧
    ((s.Push).1.Pop).1.axesRelative = s.axesRelative ∧
    ((s.Push).1.Pop).1.GetStackPointer = s.GetStackPointer ∧
    (s.Push).1.stack s.GetStackPointer =
      GCodeMachineState.mk s.state s.gbCurrent s.feedRate s.fileBeingPrinted
        s.drivesRelative s.axesRelative s.doingFileMacro ∧
    (∀ f g : GCodeMachineState,
      f.state = g.state → f.gb = g.gb → f.feedrate = g.feedrate →
      f.fileState = g.fileState → f.drivesRelative = g.drivesRelative →
      f.axesRelative = g.axesRelative → f.doingFileMacro = g.doingFileMacro → f = g) := by
  have hlt : s.stackPointer < StackSize := h
  have hne : ¬ s.stackPointer = StackSize := by omega
  have hpush : s.Push =
      ({ s with
          stack := Function.update s.stack s.stackPointer
            (GCodeMachineState.mk s.state s.gbCurrent s.feedRate s.fileBeingPrinted
              s.drivesRelative s.axesRelative s.doingFileMacro)
          stackPointer := s.stackPointer + 1
          gbCurrent := s.fileMacroGCode }, true) := by
    unfold GCodes.Push
    rw [if_neg hne]
  have hpop : ∀ t : GCodes, t.stackPointer ≠ 0 → t.Pop =
      ({ t with
          stackPointer := t.stackPointer - 1
          state := (t.stack (t.stackPointer - 1)).state
          gbCurrent := (t.stack (t.stackPointer - 1)).gb
          feedRate := (t.stack (t.stackPointer - 1)).feedrate
          fileBeingPrinted := (t.stack (t.stackPointer - 1)).fileState
          drivesRelative := (t.stack (t.stackPointer - 1)).drivesRelative
          axesRelative := (t.stack (t.stackPointer - 1)).axesRelative
          doingFileMacro := (t.stack (t.stackPointer - 1)).doingFileMacro }, true) := by
    intro t ht
    unfold GCodes.Pop
    rw [if_neg ht]
  rw [hpush]
  rw [hpop _ (Nat.succ_ne_zero s.stackPointer)]
  refine ⟨⟨rfl, rfl⟩, ?_, ?_, ?_, ?_, ?_, ?_⟩
  · simp
  · simp
  · simp
  · simp [GCodes.GetStackPointer]
  · simp [GCodes.GetStackPointer]
  · intro f g h1 h2 h3 h4 h5 h6 h7
    cases f
    cases g
    simp only at h1 h2 h3 h4 h5 h6 h7
    simp [h1, h2, h3, h4, h5, h6, h7]

/-- Instance of claim C3 on the idle interpreter (depth 0, feed rate 50, extruder drives
relative, axes absolute). -/
theorem Push_then_Pop_restores_witness :
    sampleGCodes.GetStackPointer < StackSize ∧
    ((sampleGCodes.Push).1.Pop).1.feedRate = sampleGCodes.feedRate ∧
    ((sampleGCodes.Push).1.Pop).1.drivesRelative = sampleGCodes.drivesRelative ∧
    ((sampleGCodes.Push).1.Pop).1.axesRelative = sampleGCodes.axesRelative ∧
    ((sampleGCodes.Push).1.Pop).1.GetStackPointer = sampleGCodes.GetStackPointer :=
  have h0 : sampleGCodes.GetStackPointer < StackSize := by decide
  have hc := Push_then_Pop_restores sampleGCodes h0
  ⟨h0, hc.2.1, hc.2.2.1, hc.2.2.2.1, hc.2.2.2.2.1⟩

/-! ## The Staged Move slot -/

/-- A staging attempt on an occupied slot fails and returns the object as it was. -/
theorem SetUpMove_of_moveAvailable (s : GCodes) (m : RawMove) (h : s.moveAvailable = true) :
    s.SetUpMove m = (s, false) := by
  unfold GCodes.SetUpMove
  rw [if_pos h]

/-- A staging attempt on an empty slot succeeds and stores the move. -/
theorem SetUpMove_of_not_moveAvailable (s : GCodes) (m : RawMove)
    (h : s.moveAvailable = false) :
    s.SetUpMove m = ({ s with moveBuffer := m, moveAvailable := true }, true) := by
  unfold GCodes.SetUpMove
  rw [if_neg (by simp [h])]

/-- While no `ReadMove` or `ClearMove` is made, an occupied slot stays occupied and keeps
its move. -/
theorem runMoveOps_of_no_empties (ops : List MoveOp) (s : GCodes)
    (h : s.moveAvailable = true) (hops : ∀ op ∈ ops, op.empties = false) :
    runMoveOps ops s = s := by
  induction ops with
  | nil => rfl
  | cons op ops ih =>
    have hop : op.empties = false := hops op (List.mem_cons_self _ _)
    have hrest : ∀ o ∈ ops, o.empties = false :=
      fun o ho => hops o (List.mem_cons_of_mem _ ho)
    show runMoveOps ops (MoveOp.apply s op) = s
    cases op with
    | stage m =>
      have : MoveOp.apply s (MoveOp.stage m) = s := by
        show (s.SetUpMove m).1 = s
        rw [SetUpMove_of_moveAvailable s m h]
      rw [this]
      exact ih hrest
    | read => exact absurd hop (by decide)
    | clear => exact absurd hop (by decide)

/-- Claim C2.  In every state in which `moveAvailable` is true, an attempt to stage another
move fails and every field of `moveBuffer` (coords, feedRate, filePos, endStopsToCheck,
moveType, isFirmwareRetraction, usePressureAdvance) keeps its prior value; whatever
sequence of staging attempts, `ReadMove` and `ClearMove` calls follows, a later staging
attempt succeeds only if the sequence contains a `ReadMove` or a `ClearMove`; and right
after `ReadMove` (which hands over the staged move) or `ClearMove` a new move is staged. -/
theorem staged_move_never_overwritten (s : GCodes) (m : RawMove) (ops : List MoveOp)
    (h : s.moveAvailable = true) :
    ((s.SetUpMove m).2 = false ∧
      (s.SetUpMove m).1.moveAvailable = true ∧
      (s.SetUpMove m).1.moveBuffer.coords = s.moveBuffer.coords ∧
      (s.SetUpMove m).1.moveBuffer.feedRate = s.moveBuffer.feedRate ∧
      (s.SetUpMove m).1.moveBuffer.filePos = s.moveBuffer.filePos ∧
      (s.SetUpMove m).1.moveBuffer.endStopsToCheck = s.moveBuffer.endStopsToCheck ∧
      (s.SetUpMove m).1.moveBuffer.moveType = s.moveBuffer.moveType ∧
      (s.SetUpMove m).1.moveBuffer.isFirmwareRetraction = s.moveBuffer.isFirmwareRetraction ∧
      (s.SetUpMove m).1.moveBuffer.usePressureAdvance = s.moveBuffer.usePressureAdvance) ∧
    (((runMoveOps ops s).SetUpMove m).2 = true → ∃ op ∈ ops, op.empties = true) ∧
    ((s.ReadMove).2 = some s.moveBuffer ∧
      ((s.ReadMove).1.SetUpMove m).2 = true ∧
      ((s.ReadMove).1.SetUpMove m).1.moveBuffer = m) ∧
    ((s.ClearMove.SetUpMove m).2 = true ∧ (s.ClearMove.SetUpMove m).1.moveBuffer = m) := by
  refine ⟨?_, ?_, ?_, ?_⟩
  · rw [SetUpMove_of_moveAvailable s m h]
    exact ⟨rfl, h, rfl, rfl, rfl, rfl, rfl, rfl, rfl⟩
  · intro hok
    by_contra hnone
    have hall : ∀ op ∈ ops, op.empties = false := by
      intro op hop
      cases hemp : op.empties with
      | false => rfl
      | true => exact absurd ⟨op, hop, hemp⟩ hnone
    rw [runMoveOps_of_no_empties ops s h hall, SetUpMove_of_moveAvailable s m h] at hok
    exact Bool.noConfusion hok
  · have hread : s.ReadMove = ({ s with moveAvailable := false }, some s.moveBuffer) := by
      unfold GCodes.ReadMove
      rw [if_pos h]
    rw [hread]
    refine ⟨rfl, ?_, ?_⟩
    · rw [SetUpMove_of_not_moveAvailable _ m rfl]
    · rw [SetUpMove_of_not_moveAvailable _ m rfl]
  · have hclear : s.ClearMove.moveAvailable = false := rfl
    rw [SetUpMove_of_not_moveAvailable _ m hclear]
    exact ⟨rfl, rfl⟩

/-- Instance of claim C2: a move is staged on the idle interpreter; a second staging attempt
(of a move with feed rate 0) fails and the staged feed rate is still 50. -/
theorem staged_move_never_overwritten_witness :
    (sampleGCodes.SetUpMove sampleMove).1.moveAvailable = true ∧
    (((sampleGCodes.SetUpMove sampleMove).1).SetUpMove sampleGCodes.moveBuffer).2 = false ∧
    (((sampleGCodes.SetUpMove sampleMove).1).SetUpMove
      sampleGCodes.moveBuffer).1.moveBuffer.feedRate
      = (sampleGCodes.SetUpMove sampleMove).1.moveBuffer.feedRate :=
  have h : (sampleGCodes.SetUpMove sampleMove).1.moveAvailable = true := rfl
  have hc := (staged_move_never_overwritten (sampleGCodes.SetUpMove sampleMove).1
    sampleGCodes.moveBuffer [] h).1
  ⟨h, hc.1, hc.2.2.2.1⟩

/-! ## The Z-probe sentinel -/

/-- The sentinel is bit 15. -/
theorem ZProbeActive_eq_two_pow : ZProbeActive = 2 ^ 15 := by
  decide

/-- The 16-bit complement of the sentinel is the mask of bits 0 to 14. -/
theorem notEndstopChecks_ZProbeActive : notEndstopChecks ZProbeActive = 2 ^ 15 - 1 := by
  decide

/-- The bit of a drive below 15 lies below bit 15. -/
theorem driveBit_lt (d : Nat) (h : d < 15) : driveBit d < 2 ^ 15 := by
  unfold driveBit
  rw [Nat.one_shiftLeft]
  exact Nat.pow_lt_pow_right (by decide) h

/-- A union of bits of drives below 15 lies below bit 15. -/
theorem driveBitmap_lt (ds : List Nat) (h : ∀ d ∈ ds, d < 15) : driveBitmap ds < 2 ^ 15 := by
  have gen : ∀ (l : List Nat) (b : Nat), (∀ d ∈ l, d < 15) → b < 2 ^ 15 →
      l.foldl (fun b d => b ||| driveBit d) b < 2 ^ 15 := by
    intro l
    induction l with
    | nil => intro b _ hb; exact hb
    | cons d l ih =>
      intro b hl hb
      rw [List.foldl_cons]
      apply ih
      · exact fun e he => hl e (List.mem_cons_of_mem _ he)
      · exact Nat.or_lt_two_pow hb (driveBit_lt d (hl d (List.mem_cons_self _ _)))
  exact gen ds 0 h (by decide)

/-- A bitmap below bit 15 does not meet the sentinel, and removing the sentinel from its
union with the sentinel gives the bitmap back. -/
theorem and_ZProbeActive_of_lt (b : Nat) (h : b < 2 ^ 15) :
    b &&& ZProbeActive = 0 ∧ (b ||| ZProbeActive) &&& notEndstopChecks ZProbeActive = b := by
  have hhigh : ∀ i, 15 ≤ i → b.testBit i = false := by
    intro i hi
    apply Nat.testBit_lt_two_pow
    exact lt_of_lt_of_le h (Nat.pow_le_pow_right (by decide) hi)
  rw [notEndstopChecks_ZProbeActive, ZProbeActive_eq_two_pow]
  constructor
  · apply Nat.eq_of_testBit_eq
    intro i
    rw [Nat.testBit_and, Nat.testBit_two_pow, Nat.zero_testBit]
    by_cases hi : 15 = i
    · rw [hhigh i (le_of_eq hi)]
      rfl
    · simp [hi]
  · apply Nat.eq_of_testBit_eq
    intro i
    rw [Nat.testBit_and, Nat.testBit_or, Nat.testBit_two_pow, Nat.testBit_two_pow_sub_one]
    by_cases hi : i < 15
    · have hne : ¬ 15 = i := by omega
      simp [hi, hne]
    · rw [hhigh i (by omega)]
      simp [hi]

/-- Claim C7.  `ZProbeActive` (`1 << 15` stored in the 16-bit `EndstopChecks`) is non-zero
after truncation to 16 bits and is disjoint from every drive bit: for every drive `d < 15`,
`(1 << d) AND ZProbeActive = 0`; and for every bitmap `b` that is a union of such drive
bits, `b AND ZProbeActive = 0` and `(b OR ZProbeActive) AND NOT ZProbeActive = b`; the
same holds of every bitmap that uses only the bits 0 to 14. -/
theorem ZProbeActive_disjoint_from_drive_bits :
    (ZProbeActive ≠ 0 ∧ ZProbeActive < 2 ^ EndstopChecksBits) ∧
    (∀ d, d < 15 → driveBit d &&& ZProbeActive = 0) ∧
    (∀ ds : List Nat, (∀ d ∈ ds, d < 15) →
      driveBitmap ds &&& ZProbeActive = 0 ∧
      (driveBitmap ds ||| ZProbeActive) &&& notEndstopChecks ZProbeActive = driveBitmap ds) ∧
    (∀ b, b < 2 ^ 15 →
      b &&& ZProbeActive = 0 ∧ (b ||| ZProbeActive) &&& notEndstopChecks ZProbeActive = b) :=
  ⟨⟨by decide, by decide⟩,
    fun d hd => (and_ZProbeActive_of_lt (driveBit d) (driveBit_lt d hd)).1,
    fun ds hds => and_ZProbeActive_of_lt (driveBitmap ds) (driveBitmap_lt ds hds),
    and_ZProbeActive_of_lt⟩

/-- Instance of claim C7: drive 14, the highest drive bit, and the bitmap of the drives
0, 1, 2 and 14. -/
theorem ZProbeActive_disjoint_from_drive_bits_witness :
    (14 < 15 ∧ driveBit 14 &&& ZProbeActive = 0) ∧
    ((∀ d ∈ [0, 1, 2, 14], d < 15) ∧ driveBitmap [0, 1, 2, 14] = 16391 ∧
      driveBitmap [0, 1, 2, 14] &&& ZProbeActive = 0 ∧
      (driveBitmap [0, 1, 2, 14] ||| ZProbeActive) &&& notEndstopChecks ZProbeActive
        = driveBitmap [0, 1, 2, 14]) :=
  have hds : ∀ d ∈ [0, 1, 2, 14], d < 15 := by decide
  ⟨⟨by decide, ZProbeActive_disjoint_from_drive_bits.2.1 14 (by decide)⟩,
    hds, by decide,
    (ZProbeActive_disjoint_from_drive_bits.2.2.1 [0, 1, 2, 14] hds).1,
    (ZProbeActive_disjoint_from_drive_bits.2.2.1 [0, 1, 2, 14] hds).2⟩

/-! ## Feed-rate units -/

/-- The loop of `DefineMix` over any list of drive indices writes `m[drive]` into
`mix[drive]` for the indices of the list and changes no other entry and no other field. -/
theorem DefineMix_loop (m : Nat → ℚ) (l : List Nat) (t : Tool) :
    ∃ mix : Nat → ℚ,
      l.foldl (fun (t : Tool) (drive : Nat) =>
        { t with mix := Function.update t.mix drive (m drive) }) t = { t with mix := mix } ∧
      (∀ i, i ∈ l → mix i = m i) ∧ (∀ i, i ∉ l → mix i = t.mix i) := by
  induction l generalizing t with
  | nil => exact ⟨t.mix, rfl, fun i hi => absurd hi (List.not_mem_nil i), fun _ _ => rfl⟩
  | cons d l ih =>
    obtain ⟨mix, heq, hin, hout⟩ :=
      ih { t with mix := Function.update t.mix d (m d) }
    refine ⟨mix, ?_, ?_, ?_⟩
    · rw [List.foldl_cons, heq]
    · intro i hi
      by_cases hil : i ∈ l
      · exact hin i hil
      · have hid : i = d := by
          rcases List.mem_cons.mp hi with h | h
          · exact h
          · exact absurd h hil
        rw [hout i hil, hid]
        simp
    · intro i hi
      have hid : i ≠ d := fun h => hi (h ▸ List.mem_cons_self _ _)
      have hil : i ∉ l := fun h => hi (List.mem_cons_of_mem _ h)
      rw [hout i hil]
      simp [Function.update, hid]

/-- Claim C10.  For every tool and every ratio vector `m`, after `DefineMix(m)`,
`GetMix()[i] = m[i]` for every `i < DriveCount()`, every mix entry at an index
`>= DriveCount()` keeps its previous value (with `DriveCount() = 0` the call changes
nothing), and `Number()`, `DriveCount()`, `Drive(i)`, `HeaterCount()`, `Heater(i)`,
`GetMixing()` and `GetOffset()` are unchanged, as is every field other than `mix`. -/
theorem DefineMix_GetMix_round_trip (t : Tool) (m : Nat → ℚ) :
    (∀ i, i < t.DriveCount → (t.DefineMix m).GetMix i = m i) ∧
    (∀ i, t.DriveCount ≤ i → (t.DefineMix m).GetMix i = t.GetMix i) ∧
    (t.DriveCount = 0 → t.DefineMix m = t) ∧
    (t.DefineMix m).Number = t.Number ∧
    (t.DefineMix m).DriveCount = t.DriveCount ∧
    (∀ i, (t.DefineMix m).Drive i = t.Drive i) ∧
    (t.DefineMix m).HeaterCount = t.HeaterCount ∧
    (∀ i, (t.DefineMix m).Heater i = t.Heater i) ∧
    (t.DefineMix m).GetMixing = t.GetMixing ∧
    (t.DefineMix m).GetOffset = t.GetOffset ∧
    { t.DefineMix m with mix := t.mix } = t := by
  obtain ⟨mix, heq, hin, hout⟩ := DefineMix_loop m (List.range t.driveCount) t
  have hdef : t.DefineMix m = { t with mix := mix } := heq
  rw [hdef]
  refine ⟨?_, ?_, ?_, rfl, rfl, fun _ => rfl, rfl, fun _ => rfl, rfl, rfl, rfl⟩
  · intro i hi
    exact hin i (List.mem_range.mpr hi)
  · intro i hi
    have hni : i ∉ List.range t.driveCount := fun h => by
      have hlt : i < t.driveCount := List.mem_range.mp h
      have hle : t.driveCount ≤ i := hi
      omega
    exact hout i hni
  · intro h0
    have hmix : mix = t.mix := by
      funext i
      apply hout
      have hz : t.driveCount = 0 := h0
      rw [hz]
      simp
    rw [hmix]

/-- Instance of claim C10 on the two-drive mixing tool with the ratio vector
(1/4, 3/4, 9, ...): entry 1 becomes 3/4, entry 2, beyond the drive count, keeps its value. -/
theorem DefineMix_GetMix_round_trip_witness :
    1 < sampleTool.DriveCount ∧ (sampleTool.DefineMix sampleMix).GetMix 1 = 3 / 4 ∧
    sampleTool.DriveCount ≤ 2 ∧ (sampleTool.DefineMix sampleMix).GetMix 2 = 0 :=
  have h1 : 1 < sampleTool.DriveCount := by decide
  have h2 : sampleTool.DriveCount ≤ 2 := by decide
  ⟨h1,
    ((DefineMix_GetMix_round_trip sampleTool sampleMix).1 1 h1).trans
      (by simp [sampleMix]),
    h2,
    ((DefineMix_GetMix_round_trip sampleTool sampleMix).2.1 2 h2).trans
      (by simp [sampleTool, Tool.GetMix])⟩

end RepRapFirmware
